import Mathlib

/-!
# Verification of the pngme chunk codec

Shallow embedding of `src/chunk_type.rs` and `src/chunk.rs`.

Conventions of the embedding:
* Rust `u8` / `u32` values are `Nat` with explicit `% 2^w` where the source
  casts or wraps; byte buffers are `List Nat`.
* Fallible Rust functions return `Except ChunkError _`.  A Rust `panic!` or
  an out-of-bounds slice index (which aborts the process rather than
  returning an error) is modelled by the dedicated error constructors
  `ChunkError.panicTooLong` and `ChunkError.panicOOB`, kept distinct from
  the constructors that model values actually returned as `Err(..)`.
* Rust strings are `List Char`; `str::len` (a UTF-8 byte count) is modelled
  by `utf8Len`, and the cast `c as u8` by `c.toNat % 256`.
-/

/-- Error outcomes of the codec.  `invalidChunkType`, `tooShort`,
`lengthTooLong` and `crcMismatch` model `Err(..)` values the Rust code
returns; `panicOOB` models an out-of-bounds slice index (a Rust panic, i.e.
a process abort, not a returned error) and `panicTooLong` models the
explicit `panic!("Data length is too long")` in `Chunk::new`. -/
inductive ChunkError where
  | invalidChunkType
  | tooShort
  | lengthTooLong
  | crcMismatch
  | panicOOB
  | panicTooLong
  deriving DecidableEq, Repr

/-- Model of `u8::is_ascii_alphabetic`: the byte is in `A..=Z` or `a..=z`. -/
def isAsciiAlphabetic (b : Nat) : Bool :=
  (65 ≤ b && b ≤ 90) || (97 ≤ b && b ≤ 122)

/-- Model of `ChunkType` from `chunk_type.rs`: a 4-byte tag, `pub struct ChunkType([u8; 4])`. -/
structure ChunkType where
  b0 : Nat
  b1 : Nat
  b2 : Nat
  b3 : Nat
  deriving DecidableEq, Repr

namespace ChunkType

/-- Model of `ChunkType::bytes`: the underlying 4 bytes. -/
def bytes (t : ChunkType) : List Nat :=
  [t.b0, t.b1, t.b2, t.b3]

/-- Model of `ChunkType::is_critical`: `self.0[0] & 32 == 0`. -/
def is_critical (t : ChunkType) : Bool :=
  t.b0 &&& 32 == 0

/-- Model of `ChunkType::is_public`: `self.0[1] & 32 == 0`. -/
def is_public (t : ChunkType) : Bool :=
  t.b1 &&& 32 == 0

/-- Model of `ChunkType::is_reserved_bit_valid`: `self.0[2] & 32 == 0`. -/
def is_reserved_bit_valid (t : ChunkType) : Bool :=
  t.b2 &&& 32 == 0

/-- Model of `ChunkType::is_safe_to_copy`: `self.0[3] & 32 == 32`. -/
def is_safe_to_copy (t : ChunkType) : Bool :=
  t.b3 &&& 32 == 32

/-- Model of `ChunkType::is_valid`: `(third & 32 == 0) && fourth.is_ascii_alphabetic()`
where `third = self.0[2]` and `fourth = self.0[3]`. -/
def is_valid (t : ChunkType) : Bool :=
  (t.b2 &&& 32 == 0) && isAsciiAlphabetic t.b3

/-- Model of `ChunkType::is_ancillary`: `self.0[3] & 32 == 32` (the source tests
byte 3, exactly as `is_safe_to_copy` does). -/
def is_ancillary (t : ChunkType) : Bool :=
  t.b3 &&& 32 == 32

/-- Model of `ChunkType::is_private`: `self.0[1] & 32 == 32`. -/
def is_private (t : ChunkType) : Bool :=
  t.b1 &&& 32 == 32

/-- Model of `ChunkType::is_valid_type`: `value.iter().all(u8::is_ascii_alphabetic)`. -/
def is_valid_type (b0 b1 b2 b3 : Nat) : Bool :=
  isAsciiAlphabetic b0 && isAsciiAlphabetic b1 && isAsciiAlphabetic b2 &&
    isAsciiAlphabetic b3

/-- Model of `TryFrom<[u8; 4]> for ChunkType`: `Ok(ChunkType(value))` when
`is_valid_type(value)`, `Err("Invalid chunk type")` otherwise. -/
def tryFromBytes (b0 b1 b2 b3 : Nat) : Except ChunkError ChunkType :=
  if is_valid_type b0 b1 b2 b3 then
    .ok ⟨b0, b1, b2, b3⟩
  else
    .error .invalidChunkType

/-- Model of `char::len_utf8` of a scalar value: the number of bytes of its UTF-8
encoding. -/
def charUtf8Size (n : Nat) : Nat :=
  if n ≤ 0x7F then 1 else if n ≤ 0x7FF then 2 else if n ≤ 0xFFFF then 3 else 4

/-- Model of `str::len`: the length of the string in UTF-8 bytes. -/
def utf8Len (s : List Char) : Nat :=
  (s.map fun c => charUtf8Size c.toNat).sum

/-- Byte `i` of the `let mut bytes = [0u8; 4]` array after the loop
`for (i, c) in s.chars().enumerate() { bytes[i] = c as u8 }`: the `i`-th
character truncated to a byte, or the untouched `0` when the string has at
most `i` characters. -/
def strByte (s : List Char) (i : Nat) : Nat :=
  (s.map fun c => c.toNat % 256).getD i 0

/-- Inherent `ChunkType::from_str` (chunk_type.rs lines 61-70): rejects a
string whose byte length is not 4, then fills a 4-byte array from the
characters and delegates to `TryFrom<[u8; 4]>`. -/
def from_str (s : List Char) : Except ChunkError ChunkType :=
  if utf8Len s ≠ 4 then
    .error .invalidChunkType
  else
    tryFromBytes (strByte s 0) (strByte s 1) (strByte s 2) (strByte s 3)

/-- Model of `FromStr for ChunkType` (chunk_type.rs lines 90-98): rejects a string
whose byte length is not 4, then fills a 4-byte array from the characters
and delegates to `TryFrom<[u8; 4]>`. -/
def fromStrTrait (s : List Char) : Except ChunkError ChunkType :=
  if utf8Len s ≠ 4 then
    .error .invalidChunkType
  else
    tryFromBytes (strByte s 0) (strByte s 1) (strByte s 2) (strByte s 3)

end ChunkType

/-- Whether an `Except` value is a success. -/
def isOkE {ε α : Type} : Except ε α → Bool
  | .ok _ => true
  | .error _ => false

/-- The chunk type `"RuSt"` (bytes 82, 117, 83, 116) used throughout the
repository's tests. -/
def tRuSt : ChunkType := ⟨82, 117, 83, 116⟩

/-- The CRC-32/CKSUM generator polynomial `0x04C11DB7` (the `crc` crate's
`CRC_32_CKSUM` parameterization used by `chunk.rs`). -/
def crcPoly : Nat := 0x04C11DB7

/-- One shift step of the non-reflected CRC-32: shift left, conditionally
xor with the polynomial, truncated to 32 bits. -/
def crcStepBit (c : Nat) : Nat :=
  if c.testBit 31 then ((c <<< 1) ^^^ crcPoly) % 4294967296
  else (c <<< 1) % 4294967296

/-- Feed one input byte into the CRC state (MSB-first, no reflection). -/
def crcStepByte (c b : Nat) : Nat :=
  let c := (c ^^^ ((b % 256) <<< 24)) % 4294967296
  crcStepBit (crcStepBit (crcStepBit (crcStepBit
    (crcStepBit (crcStepBit (crcStepBit (crcStepBit c)))))))

/-- Model of `Crc::<u32>::new(&crc::CRC_32_CKSUM).checksum(data)`: init `0x00000000`,
no input/output reflection, xor-out `0xFFFFFFFF`. -/
def crc32_cksum (data : List Nat) : Nat :=
  (data.foldl crcStepByte 0) ^^^ 0xFFFFFFFF

/-- Model of `u32::to_be_bytes`: the 4 big-endian bytes of a 32-bit value. -/
def be32Bytes (n : Nat) : List Nat :=
  [n / 16777216 % 256, n / 65536 % 256, n / 256 % 256, n % 256]

/-- Model of `u32::from_be_bytes`: assemble a 32-bit value from 4 big-endian bytes. -/
def be32 (b0 b1 b2 b3 : Nat) : Nat :=
  b0 * 16777216 + b1 * 65536 + b2 * 256 + b3

/-- Model of `Chunk` from `chunk.rs`: `length: u32`, `chunk_type: ChunkType`,
`data: Vec<u8>`, `crc: u32`. -/
structure Chunk where
  length : Nat
  chunk_type : ChunkType
  data : List Nat
  crc : Nat
  deriving DecidableEq, Repr

namespace Chunk

/-- Model of `Chunk::new` (chunk.rs lines 30-49).  Panics (`panicTooLong`) when
`data.len() > u32::MAX as usize`; otherwise computes the CRC over `data`
alone with `CRC_32_CKSUM` and stores `data.len() as u32` as the length. -/
def new (chunk_type : ChunkType) (data : List Nat) : Except ChunkError Chunk :=
  if data.length > 4294967295 then
    .error .panicTooLong
  else
    .ok ⟨data.length % 4294967296, chunk_type, data, crc32_cksum data⟩

/-- Model of `Chunk::as_bytes` (chunk.rs lines 90-107): big-endian length, the 4
type bytes, the payload, big-endian CRC. -/
def asBytes (c : Chunk) : List Nat :=
  be32Bytes c.length ++ c.chunk_type.bytes ++ c.data ++ be32Bytes c.crc

/-- Model of `TryFrom<&[u8]> for Chunk` (chunk.rs lines 113-156), transcribed branch
for branch.  After reading the chunk type, the source rebinds `data` to the
payload slice `data[8..8 + length]`; the later CRC read
`data[(8 + length)..(12 + length)]` therefore indexes into the *payload*
vector, not the input buffer.  Each Rust slice expression `v[a..b]` panics
(modelled as `panicOOB`) when `b > v.len()`. -/
def tryFrom (input : List Nat) : Except ChunkError Chunk :=
  if input.length < 12 then
    .error .tooShort
  else
    let length := be32 (input.getD 0 0) (input.getD 1 0) (input.getD 2 0)
      (input.getD 3 0)
    if length > 4294967295 then
      .error .lengthTooLong
    else
      match ChunkType.tryFromBytes (input.getD 4 0) (input.getD 5 0)
        (input.getD 6 0) (input.getD 7 0) with
      | .error e => .error e
      | .ok chunk_type =>
        if input.length < 8 + length then
          .error .panicOOB
        else
          let data := (input.drop 8).take length
          if data.length < 12 + length then
            .error .panicOOB
          else
            let crc := be32 (data.getD (8 + length) 0) (data.getD (9 + length) 0)
              (data.getD (10 + length) 0) (data.getD (11 + length) 0)
            let my_crc := crc32_cksum data
            if crc ≠ my_crc then
              .error .crcMismatch
            else
              .ok ⟨length, chunk_type, data, crc⟩

end Chunk

/-! ## Helper lemmas -/

/-- Success of the byte constructor is exactly the `is_valid_type` test. -/
theorem isOkE_tryFromBytes (b0 b1 b2 b3 : Nat) :
    isOkE (ChunkType.tryFromBytes b0 b1 b2 b3) =
      ChunkType.is_valid_type b0 b1 b2 b3 := by
  unfold ChunkType.tryFromBytes
  split <;> simp_all [isOkE]

/-- Masking with bit 5 yields either `0` or `32`. -/
theorem and_32_eq_zero_or_32 (n : Nat) : n &&& 32 = 0 ∨ n &&& 32 = 32 := by
  have h : n &&& 2 ^ 5 = (n.testBit 5).toNat * 2 ^ 5 := Nat.and_two_pow n 5
  cases hb : n.testBit 5 <;> rw [hb] at h <;> simp at h <;> simp [h]

/-- Every scalar value's UTF-8 encoding occupies at least one byte. -/
theorem one_le_charUtf8Size (n : Nat) : 1 ≤ ChunkType.charUtf8Size n := by
  unfold ChunkType.charUtf8Size
  split <;> [omega; skip]
  split <;> [omega; skip]
  split <;> omega

/-- A non-ASCII scalar value's UTF-8 encoding occupies at least two bytes. -/
theorem two_le_charUtf8Size (n : Nat) (h : 128 ≤ n) :
    2 ≤ ChunkType.charUtf8Size n := by
  unfold ChunkType.charUtf8Size
  rw [if_neg (by omega)]
  split <;> [omega; skip]
  split <;> omega

/-- A string never has more characters than UTF-8 bytes. -/
theorem length_le_utf8Len (s : List Char) : s.length ≤ ChunkType.utf8Len s := by
  induction s with
  | nil => simp [ChunkType.utf8Len]
  | cons c cs ih =>
      have := one_le_charUtf8Size c.toNat
      simp only [ChunkType.utf8Len, List.map_cons, List.sum_cons, List.length_cons]
      simp only [ChunkType.utf8Len] at ih
      omega

/-- A string containing a non-ASCII character has strictly more UTF-8 bytes
than characters. -/
theorem length_lt_utf8Len_of_nonAscii (s : List Char) (c : Char) (hc : c ∈ s)
    (h : 128 ≤ c.toNat) : s.length + 1 ≤ ChunkType.utf8Len s := by
  induction s with
  | nil => cases hc
  | cons a as ih =>
      simp only [ChunkType.utf8Len, List.map_cons, List.sum_cons, List.length_cons]
      rcases List.mem_cons.mp hc with rfl | hmem
      · have h2 := two_le_charUtf8Size c.toNat h
        have h3 := length_le_utf8Len as
        simp only [ChunkType.utf8Len] at h3
        omega
      · have h1 := one_le_charUtf8Size a.toNat
        have h4 := ih hmem
        simp only [ChunkType.utf8Len, List.length_cons] at h4 ⊢
        omega

/-- An all-ASCII string has exactly one UTF-8 byte per character. -/
theorem utf8Len_eq_length_of_ascii (s : List Char)
    (h : ∀ c ∈ s, c.toNat < 128) : ChunkType.utf8Len s = s.length := by
  induction s with
  | nil => simp [ChunkType.utf8Len]
  | cons a as ih =>
      have ha : ChunkType.charUtf8Size a.toNat = 1 := by
        unfold ChunkType.charUtf8Size
        rw [if_pos]
        have := h a (List.mem_cons_self a as)
        omega
      simp only [ChunkType.utf8Len, List.map_cons, List.sum_cons, List.length_cons] at ih ⊢
      rw [ha, ih fun c hc => h c (List.mem_cons_of_mem a hc)]
      omega

/-! ## Claim theorems -/

/-- C5: constructing a `ChunkType` from a 4-byte array succeeds iff all
four bytes are ASCII alphabetic (`A`-`Z` or `a`-`z`), and a successfully
constructed value carries exactly the given bytes, all alphabetic — the
validating constructor never produces a value with a non-alphabetic byte. -/
theorem tryFromBytes_ok_iff_alphabetic (b0 b1 b2 b3 : Nat) :
    (isOkE (ChunkType.tryFromBytes b0 b1 b2 b3) =
      (isAsciiAlphabetic b0 && isAsciiAlphabetic b1 && isAsciiAlphabetic b2 &&
        isAsciiAlphabetic b3))
    ∧ ∀ t, ChunkType.tryFromBytes b0 b1 b2 b3 = .ok t →
        t = ⟨b0, b1, b2, b3⟩ ∧
          (isAsciiAlphabetic t.b0 && isAsciiAlphabetic t.b1 &&
            isAsciiAlphabetic t.b2 && isAsciiAlphabetic t.b3) = true := by
  constructor
  · exact isOkE_tryFromBytes b0 b1 b2 b3
  · intro t h
    unfold ChunkType.tryFromBytes at h
    split at h
    · next hv =>
        cases h
        exact ⟨rfl, hv⟩
    · exact Except.noConfusion h

/-- Witness for C5 at the concrete bytes `82, 117, 83, 116` (`"RuSt"`). -/
theorem tryFromBytes_ok_iff_alphabetic_witness :
    tRuSt = ⟨82, 117, 83, 116⟩ ∧
      (isAsciiAlphabetic tRuSt.b0 && isAsciiAlphabetic tRuSt.b1 &&
        isAsciiAlphabetic tRuSt.b2 && isAsciiAlphabetic tRuSt.b3) = true :=
  (tryFromBytes_ok_iff_alphabetic 82 117 83 116).2 tRuSt rfl

/-- C7: refuted on the code.  `is_ancillary` tests byte 3 (it is a
duplicate of `is_safe_to_copy`), not the complement of `is_critical`'s
byte-0 test: on the chunk type `"RuSt"` both `is_critical` and
`is_ancillary` return `true`, so `is_ancillary ≠ !is_critical`.  The
`is_private`/`is_public` half of the claim does hold. -/
theorem is_ancillary_not_complement_of_critical :
    ChunkType.is_critical tRuSt = true ∧ ChunkType.is_ancillary tRuSt = true ∧
      (ChunkType.is_ancillary tRuSt ≠ !ChunkType.is_critical tRuSt) ∧
      ∀ t : ChunkType, ChunkType.is_private t = !ChunkType.is_public t := by
  refine ⟨rfl, rfl, by decide, fun t => ?_⟩
  unfold ChunkType.is_private ChunkType.is_public
  rcases and_32_eq_zero_or_32 t.b1 with h | h <;> rw [h] <;> decide

/-- C8: the composite `is_valid` query returns `true` exactly when the
reserved-bit condition (`is_reserved_bit_valid`, byte 2 uppercase) holds
and the fourth byte is ASCII alphabetic. -/
theorem is_valid_eq_reserved_and_alphabetic (t : ChunkType) :
    ChunkType.is_valid t =
      (ChunkType.is_reserved_bit_valid t && isAsciiAlphabetic t.b3) := rfl

/-- C10: the inherent `ChunkType::from_str` and the `FromStr` trait
implementation agree on every input string. -/
theorem from_str_eq_fromStrTrait (s : List Char) :
    ChunkType.from_str s = ChunkType.fromStrTrait s := rfl

/-- A list of length 4 is a four-element list. -/
theorem list_eq_four_of_length {α : Type} (l : List α) (h : l.length = 4) :
    ∃ a b c d, l = [a, b, c, d] := by
  rcases l with _ | ⟨a, l⟩
  · simp at h
  rcases l with _ | ⟨b, l⟩
  · simp at h
  rcases l with _ | ⟨c, l⟩
  · simp at h
  rcases l with _ | ⟨d, l⟩
  · simp at h
  rcases l with _ | ⟨e, l⟩
  · exact ⟨a, b, c, d, rfl⟩
  · simp at h

/-- C6: constructing a `ChunkType` from a string fails whenever the UTF-8
byte length is not exactly 4; every 4-byte string containing a non-ASCII
character is also rejected (through the alphabetic check on the truncated
byte array); and on 4-byte all-ASCII strings construction succeeds exactly
when all four characters are ASCII alphabetic. -/
theorem from_str_validation (s : List Char) :
    (ChunkType.utf8Len s ≠ 4 → ChunkType.from_str s = .error .invalidChunkType)
    ∧ (ChunkType.utf8Len s = 4 → (∃ c ∈ s, 128 ≤ c.toNat) →
        ChunkType.from_str s = .error .invalidChunkType)
    ∧ (ChunkType.utf8Len s = 4 → (∀ c ∈ s, c.toNat < 128) →
        (isOkE (ChunkType.from_str s) = true ↔
          ∀ c ∈ s, isAsciiAlphabetic c.toNat = true)) := by
  refine ⟨?_, ?_, ?_⟩
  · intro h
    unfold ChunkType.from_str
    rw [if_pos h]
  · intro h4 hex
    obtain ⟨c, hc, hge⟩ := hex
    have hlt := length_lt_utf8Len_of_nonAscii s c hc hge
    have hlen3 : s.length ≤ 3 := by omega
    have hb3 : ChunkType.strByte s 3 = 0 := by
      unfold ChunkType.strByte
      exact List.getD_eq_default _ _ (by simpa using hlen3)
    unfold ChunkType.from_str
    rw [if_neg (by omega), hb3]
    unfold ChunkType.tryFromBytes
    rw [if_neg]
    simp [ChunkType.is_valid_type, isAsciiAlphabetic]
  · intro h4 hall
    obtain ⟨a, b, c, d, rfl⟩ := list_eq_four_of_length s
      (by have := utf8Len_eq_length_of_ascii s hall; omega)
    have ha := hall a (by simp)
    have hb := hall b (by simp)
    have hc := hall c (by simp)
    have hd := hall d (by simp)
    unfold ChunkType.from_str
    rw [if_neg (by omega), isOkE_tryFromBytes]
    unfold ChunkType.is_valid_type ChunkType.strByte
    simp only [List.map_cons, List.map_nil, List.getD_cons_zero,
      List.getD_cons_succ]
    rw [Nat.mod_eq_of_lt (show a.toNat < 256 by omega),
      Nat.mod_eq_of_lt (show b.toNat < 256 by omega),
      Nat.mod_eq_of_lt (show c.toNat < 256 by omega),
      Nat.mod_eq_of_lt (show d.toNat < 256 by omega)]
    simp only [Bool.and_eq_true, List.forall_mem_cons, List.forall_mem_nil]
    tauto

/-- Witness for C6 at the concrete string `"RuSt"`: its UTF-8 length is 4,
all characters are ASCII, and construction succeeds iff all four are
alphabetic. -/
theorem from_str_validation_witness :
    isOkE (ChunkType.from_str ['R', 'u', 'S', 't']) = true ↔
      ∀ c ∈ ['R', 'u', 'S', 't'], isAsciiAlphabetic c.toNat = true :=
  (from_str_validation ['R', 'u', 'S', 't']).2.2 (by decide) (by decide)

/-- The 42-byte payload `"This is where your secret message will be!"` used
by the repository's tests. -/
def msgBytes : List Nat :=
  [84, 104, 105, 115, 32, 105, 115, 32, 119, 104, 101, 114, 101, 32, 121,
   111, 117, 114, 32, 115, 101, 99, 114, 101, 116, 32, 109, 101, 115, 115,
   97, 103, 101, 32, 119, 105, 108, 108, 32, 98, 101, 33]

/-- The decode path can never succeed: after the source rebinds `data` to
the `length`-byte payload, the CRC read `data[(8 + length)..(12 + length)]`
indexes past the end of that payload for every possible `length`, so every
control path ends in an error or the modelled panic. -/
theorem tryFrom_always_fails (input : List Nat) (c : Chunk) :
    Chunk.tryFrom input ≠ Except.ok c := by
  intro h
  simp only [Chunk.tryFrom] at h
  split at h
  · exact Except.noConfusion h
  · split at h
    · exact Except.noConfusion h
    · split at h
      · exact Except.noConfusion h
      · split at h
        · exact Except.noConfusion h
        · split at h
          · exact Except.noConfusion h
          · next hlen =>
              rw [List.length_take] at hlen
              omega

/-- C4 counterexample: on a payload of `2^32` bytes, `Chunk::new` hits the
explicit `panic!("Data length is too long")` — modelled by
`ChunkError.panicTooLong`, a process abort — instead of returning a
recoverable `PayloadTooLarge` error as the claim states. -/
theorem chunk_new_oversized_counterexample :
    Chunk.new tRuSt (List.replicate 4294967296 0) =
      .error .panicTooLong := by
  unfold Chunk.new
  rw [if_pos]
  rw [List.length_replicate]
  decide

/-- C4 amended: for every payload longer than `2^32 - 1` bytes,
`Chunk::new` enforces the boundary (no truncation, no wraparound), but it
does so by panicking (`panic!("Data length is too long")`, a fatal abort of
the host process) rather than by returning a recoverable error. -/
theorem chunk_new_oversized_panics (t : ChunkType) (p : List Nat)
    (h : p.length > 4294967295) :
    Chunk.new t p = .error .panicTooLong := by
  unfold Chunk.new
  rw [if_pos h]

/-- Witness for the amended C4 at the concrete payload of `2^32` zero
bytes. -/
theorem chunk_new_oversized_panics_witness :
    (List.replicate 4294967296 (0 : Nat)).length > 4294967295 ∧
      Chunk.new ⟨97, 98, 99, 100⟩ (List.replicate 4294967296 0) =
        .error .panicTooLong :=
  ⟨by rw [List.length_replicate]; decide,
    chunk_new_oversized_panics ⟨97, 98, 99, 100⟩ _
      (by rw [List.length_replicate]; decide)⟩

/-- C9: every `Chunk` actually returned by a public constructor satisfies
`length = data.len()`.  For `Chunk::new` the stored `data.len() as u32`
equals the payload length because the size guard has already excluded any
payload of `2^32` bytes or more; for the decode path the invariant holds
because decoding never returns a value at all (`tryFrom_always_fails`). -/
theorem chunk_length_invariant :
    (∀ t p c, Chunk.new t p = .ok c → c.length = c.data.length)
    ∧ (∀ input c, Chunk.tryFrom input = .ok c → c.length = c.data.length) := by
  constructor
  · intro t p c h
    unfold Chunk.new at h
    split at h
    · exact Except.noConfusion h
    · next hle =>
        cases h
        exact Nat.mod_eq_of_lt (by omega)
  · intro input c h
    exact absurd h (tryFrom_always_fails input c)

/-- Witness for C9 at the concrete chunk built from `"RuSt"` and the empty
payload. -/
theorem chunk_length_invariant_witness :
    (⟨0, tRuSt, [], 4294967295⟩ : Chunk).length =
      (⟨0, tRuSt, [], 4294967295⟩ : Chunk).data.length :=
  chunk_length_invariant.1 tRuSt [] ⟨0, tRuSt, [], 4294967295⟩ rfl

/-- C1: refuted on the code.  Encoding the chunk built from `"RuSt"` and
the empty payload yields the 12-byte buffer
`[0,0,0,0, 82,117,83,116, 255,255,255,255]`, but decoding it hits the
out-of-bounds CRC read on the shadowed payload vector (a Rust panic,
modelled `panicOOB`) instead of returning the original chunk, so
`decode(encode(construct(t,p))) = construct(t,p)` fails for every
constructible chunk. -/
theorem decode_encode_roundtrip_fails :
    Chunk.new tRuSt [] = .ok ⟨0, tRuSt, [], 4294967295⟩ ∧
      Chunk.tryFrom (Chunk.asBytes ⟨0, tRuSt, [], 4294967295⟩) =
        .error .panicOOB :=
  ⟨rfl, rfl⟩

/-- C2: refuted on the code.  A 12-byte buffer whose declared length field
is 100 requires `8 + 100 + 4 = 112` bytes; instead of failing with a
`Truncated` error the decoder's unchecked payload slice
`data[8..8 + length]` reads past the buffer end and panics (`panicOOB`). -/
theorem decode_truncated_input_panics :
    ([0, 0, 0, 100, 82, 117, 83, 116, 0, 0, 0, 0] : List Nat).length = 12 ∧
      12 < 8 + 100 + 4 ∧
      Chunk.tryFrom [0, 0, 0, 100, 82, 117, 83, 116, 0, 0, 0, 0] =
        .error .panicOOB :=
  ⟨rfl, by decide, rfl⟩

/-- Value of `CRC_32_CKSUM` over the test payload alone, evaluated byte by byte. -/
theorem crc_msgBytes : crc32_cksum msgBytes = 953651359 := by
  have h0 : crcStepByte 0 84 = 1804852699 := rfl
  have h1 : crcStepByte 1804852699 104 = 2661219801 := rfl
  have h2 : crcStepByte 2661219801 105 = 151155724 := rfl
  have h3 : crcStepByte 151155724 115 = 3444229937 := rfl
  have h4 : crcStepByte 3444229937 32 = 3198390698 := rfl
  have h5 : crcStepByte 3198390698 105 = 2890772972 := rfl
  have h6 : crcStepByte 2890772972 115 = 1684347476 := rfl
  have h7 : crcStepByte 1684347476 32 = 1117278891 := rfl
  have h8 : crcStepByte 1117278891 119 = 1537584635 := rfl
  have h9 : crcStepByte 1537584635 104 = 2094837833 := rfl
  have h10 : crcStepByte 2094837833 101 = 2993185407 := rfl
  have h11 : crcStepByte 2993185407 114 = 904458137 := rfl
  have h12 : crcStepByte 904458137 101 = 2423796231 := rfl
  have h13 : crcStepByte 2423796231 32 = 3305933438 := rfl
  have h14 : crcStepByte 3305933438 121 = 2226677786 := rfl
  have h15 : crcStepByte 2226677786 111 = 1451947800 := rfl
  have h16 : crcStepByte 1451947800 117 = 530024505 := rfl
  have h17 : crcStepByte 530024505 114 = 182483268 := rfl
  have h18 : crcStepByte 182483268 32 = 1473258550 := rfl
  have h19 : crcStepByte 1473258550 115 = 1526986300 := rfl
  have h20 : crcStepByte 1526986300 101 = 3947557274 := rfl
  have h21 : crcStepByte 3947557274 99 = 99981142 := rfl
  have h22 : crcStepByte 99981142 114 = 191110114 := rfl
  have h23 : crcStepByte 191110114 101 = 4096820381 := rfl
  have h24 : crcStepByte 4096820381 116 = 1502117358 := rfl
  have h25 : crcStepByte 1502117358 32 = 1241514984 := rfl
  have h26 : crcStepByte 1241514984 109 = 2254900965 := rfl
  have h27 : crcStepByte 2254900965 101 = 2951013792 := rfl
  have h28 : crcStepByte 2951013792 115 = 3228725389 := rfl
  have h29 : crcStepByte 3228725389 115 = 3255641767 := rfl
  have h30 : crcStepByte 3255641767 97 = 4048213975 := rfl
  have h31 : crcStepByte 4048213975 103 = 1967956268 := rfl
  have h32 : crcStepByte 1967956268 101 = 11597680 := rfl
  have h33 : crcStepByte 11597680 32 = 685033184 := rfl
  have h34 : crcStepByte 685033184 119 = 2485057210 := rfl
  have h35 : crcStepByte 2485057210 105 = 2793652698 := rfl
  have h36 : crcStepByte 2793652698 108 = 4055997519 := rfl
  have h37 : crcStepByte 4055997519 108 = 3578589773 := rfl
  have h38 : crcStepByte 3578589773 32 = 3532643170 := rfl
  have h39 : crcStepByte 3532643170 98 = 853929854 := rfl
  have h40 : crcStepByte 853929854 101 = 2201978114 := rfl
  have h41 : crcStepByte 2201978114 33 = 3341315936 := rfl
  simp only [crc32_cksum, msgBytes, List.foldl_cons, List.foldl_nil, h0, h1, h2, h3, h4, h5, h6, h7, h8, h9, h10, h11, h12, h13, h14, h15, h16, h17, h18, h19, h20, h21, h22, h23, h24, h25, h26, h27, h28, h29, h30, h31, h32, h33, h34, h35, h36, h37, h38, h39, h40, h41]
  decide

/-- Value of `CRC_32_CKSUM` over the chunk-type bytes followed by the test payload,
evaluated byte by byte. -/
theorem crc_type_msgBytes :
    crc32_cksum (ChunkType.bytes tRuSt ++ msgBytes) = 499110230 := by
  have g0 : crcStepByte 0 82 = 1897238633 := rfl
  have g1 : crcStepByte 1897238633 117 = 110370780 := rfl
  have g2 : crcStepByte 110370780 83 = 4216134764 := rfl
  have g3 : crcStepByte 4216134764 116 = 476000595 := rfl
  have g4 : crcStepByte 476000595 84 = 1304415951 := rfl
  have g5 : crcStepByte 1304415951 104 = 807932555 := rfl
  have g6 : crcStepByte 807932555 105 = 1917636616 := rfl
  have g7 : crcStepByte 1917636616 115 = 1209079223 := rfl
  have g8 : crcStepByte 1209079223 32 = 2612567087 := rfl
  have g9 : crcStepByte 2612567087 105 = 950462823 := rfl
  have g10 : crcStepByte 950462823 115 = 3106200598 := rfl
  have g11 : crcStepByte 3106200598 32 = 587783569 := rfl
  have g12 : crcStepByte 587783569 119 = 1666075867 := rfl
  have g13 : crcStepByte 1666075867 104 = 1694961761 := rfl
  have g14 : crcStepByte 1694961761 101 = 118513920 := rfl
  have g15 : crcStepByte 118513920 114 = 3876615820 := rfl
  have g16 : crcStepByte 3876615820 101 = 1895323520 := rfl
  have g17 : crcStepByte 1895323520 32 = 2160077575 := rfl
  have g18 : crcStepByte 2160077575 121 = 1801062918 := rfl
  have g19 : crcStepByte 1801062918 111 = 1225683164 := rfl
  have g20 : crcStepByte 1225683164 117 = 4014877428 := rfl
  have g21 : crcStepByte 4014877428 114 = 1526352205 := rfl
  have g22 : crcStepByte 1526352205 32 = 897025585 := rfl
  have g23 : crcStepByte 897025585 115 = 1501957317 := rfl
  have g24 : crcStepByte 1501957317 101 = 1731343348 := rfl
  have g25 : crcStepByte 1731343348 99 = 557286108 := rfl
  have g26 : crcStepByte 557286108 114 = 1112953310 := rfl
  have g27 : crcStepByte 1112953310 101 = 3493148901 := rfl
  have g28 : crcStepByte 3493148901 116 = 3608397266 := rfl
  have g29 : crcStepByte 3608397266 32 = 2218426124 := rfl
  have g30 : crcStepByte 2218426124 109 = 3709852278 := rfl
  have g31 : crcStepByte 3709852278 101 = 2230064838 := rfl
  have g32 : crcStepByte 2230064838 115 = 2078894860 := rfl
  have g33 : crcStepByte 2078894860 115 = 3479429560 := rfl
  have g34 : crcStepByte 3479429560 97 = 2923449860 := rfl
  have g35 : crcStepByte 2923449860 103 = 1057842326 := rfl
  have g36 : crcStepByte 1057842326 101 = 1517939665 := rfl
  have g37 : crcStepByte 1517939665 32 = 3067419185 := rfl
  have g38 : crcStepByte 3067419185 119 = 2354166830 := rfl
  have g39 : crcStepByte 2354166830 105 = 2211472146 := rfl
  have g40 : crcStepByte 2211472146 108 = 763726276 := rfl
  have g41 : crcStepByte 763726276 108 = 3050219968 := rfl
  have g42 : crcStepByte 3050219968 32 = 4235301109 := rfl
  have g43 : crcStepByte 4235301109 98 = 1745055380 := rfl
  have g44 : crcStepByte 1745055380 101 = 849547987 := rfl
  have g45 : crcStepByte 849547987 33 = 3795857065 := rfl
  have happ : ChunkType.bytes tRuSt ++ msgBytes = [82, 117, 83, 116, 84, 104, 105, 115, 32, 105, 115, 32, 119, 104, 101, 114, 101, 32, 121, 111, 117, 114, 32, 115, 101, 99, 114, 101, 116, 32, 109, 101, 115, 115, 97, 103, 101, 32, 119, 105, 108, 108, 32, 98, 101, 33] := rfl
  simp only [crc32_cksum, happ, List.foldl_cons, List.foldl_nil, g0, g1, g2, g3, g4, g5, g6, g7, g8, g9, g10, g11, g12, g13, g14, g15, g16, g17, g18, g19, g20, g21, g22, g23, g24, g25, g26, g27, g28, g29, g30, g31, g32, g33, g34, g35, g36, g37, g38, g39, g40, g41, g42, g43, g44, g45]
  decide
/-- C3: refuted on the code.  For the repository test's type and payload,
the checksum stored by `Chunk::new` is `CRC_32_CKSUM` over the payload
alone (953651359); it differs both from the CRC over
`chunk_type.bytes ++ data` that the claim prescribes (499110230) and from
the value 2882656334 that the repository's own `test_new_chunk` asserts. -/
theorem crc_covers_payload_only :
    Chunk.new tRuSt msgBytes = .ok ⟨42, tRuSt, msgBytes, 953651359⟩ ∧
      crc32_cksum (ChunkType.bytes tRuSt ++ msgBytes) = 499110230 ∧
      (953651359 : Nat) ≠ 499110230 ∧ (953651359 : Nat) ≠ 2882656334 := by
  refine ⟨?_, crc_type_msgBytes, by decide, by decide⟩
  show (if msgBytes.length > 4294967295 then _ else _) = _
  rw [if_neg (by decide)]
  rw [show msgBytes.length % 4294967296 = 42 from rfl, crc_msgBytes]
